import Mathlib

/-!
Shallow embedding of the ImagePolicy reconciliation controller
(`internal/controller/imagepolicy_controller.go`, package `controller`) and the
Rekor attestation client (`internal/rekor`, package `rekor`).

Conventions of the embedding:
* Go strings are Lean `String`s; the `strings` package primitives used by the
  code (`HasPrefix`, `Contains`, `Split` on a one-character separator) are
  modelled over `List Char` so that every definition evaluates by kernel
  reduction.
* Wall-clock reads (`metav1.Now()`, `time.Now()`) are an abstract `Nat` clock
  value supplied by the caller; `time.Sleep` durations are recorded in a trace.
* External I/O (DockerHub HTTP calls, the cluster List/Update calls) is an
  explicit environment value: each reconcile cycle receives the outcome the
  external world would have produced, and the cycle's state transition on the
  ImagePolicy status is a pure function of it.
* Kubernetes label selectors are external collaborators; a selector is
  modelled as its evaluation function on a label set.
-/

/-- Go `strings.HasPrefix s pre` (the Go argument order is `(s, prefix)`). -/
def goStartsWith (s pre : String) : Bool :=
  pre.toList.isPrefixOf s.toList

/-- Does `pat` occur as a contiguous sublist of the second argument? -/
def hasSubList (pat : List Char) : List Char → Bool
  | [] => pat.isEmpty
  | c :: rest => pat.isPrefixOf (c :: rest) || hasSubList pat rest

/-- Go `strings.Contains s pat`: `pat` occurs as a contiguous substring of `s`. -/
def goContains (s pat : String) : Bool :=
  hasSubList pat.toList s.toList

/-- Split a character list at every occurrence of `sep`
(Go `strings.Split` with a one-character separator). -/
def splitChar (sep : Char) : List Char → List (List Char)
  | [] => [[]]
  | c :: rest =>
    if c == sep then
      [] :: splitChar sep rest
    else
      match splitChar sep rest with
      | [] => [[c]]
      | h :: t => (c :: h) :: t

/-- Go `strings.Split s (String.singleton sep)`. -/
def goSplitChar (s : String) (sep : Char) : List String :=
  (splitChar sep s.toList).map (fun l => String.mk l)

/-- Go `fmt` `%v` rendering of a `[]string` value. -/
def goSliceFmt (xs : List String) : String :=
  "[" ++ String.intercalate " " xs ++ "]"

/-! ## Data model (api/v1 types, status strings as in `imagepolicy_types.go`) -/

def ComplianceStatusCompliant : String := "Compliant"
def ComplianceStatusNonCompliant : String := "NonCompliant"
def ComplianceStatusUnknown : String := "Unknown"
def ComplianceStatusError : String := "Error"
def ConditionTypeReady : String := "Ready"
def ConditionTypeDegraded : String := "Degraded"

/-- `metav1.Condition`; `status` is the k8s condition-status string
("True"/"False"/"Unknown"), `lastTransitionTime` the abstract clock value. -/
structure Condition where
  type : String
  status : String
  lastTransitionTime : Nat
  reason : String
  message : String
  deriving Repr, DecidableEq

/-- `AttestationPolicy` from the ImagePolicy spec (the `maxAge` field exists in
the CRD but is never read by the controller). -/
structure AttestationPolicy where
  requireAttestation : Option Bool := none
  allowedIssuers : Option (List String) := none
  requiredTypes : Option (List String) := none
  deriving Repr, DecidableEq

/-- `rekor.AttestationResult` (the wall-clock `Timestamp` field is never read
by the controller and is omitted). -/
structure AttestationResult where
  verified : Bool
  attestationType : String := ""
  issuer : String := ""
  logIndex : Int := 0
  error : String := ""
  deriving Repr, DecidableEq

/-- `securityv1.AttestationDetails` as filled in by the controller. -/
structure AttestationDetails where
  verified : Bool
  attestationType : String
  issuer : String
  lastChecked : Nat
  error : String
  rekorLogIndex : Option Int
  deriving Repr, DecidableEq

/-- `securityv1.DeploymentStatus`. -/
structure DeploymentStatus where
  name : String
  ns : String
  currentDigest : String := ""
  isCompliant : Bool := true
  hasValidAttestation : Option Bool := none
  attestationDetails : Option AttestationDetails := none
  lastUpdated : Nat := 0
  deriving Repr, DecidableEq

/-- An `appsv1.Deployment`, restricted to the fields the controller reads:
metadata labels and the pod-template container images. -/
structure Deployment where
  name : String
  ns : String
  labels : List (String × String) := []
  containers : List String := []
  deriving Repr, DecidableEq

/-- `securityv1.ImagePolicySpec`, restricted to the fields the reconcile loop
reads (the namespace/deployment selectors are consumed by the external list
calls, see `ReconcileEnv.listedDeployments`). -/
structure ImagePolicySpec where
  repository : String
  checkIntervalSeconds : Option Nat := none
  enforceLatestDigest : Option Bool := none
  attestationPolicy : Option AttestationPolicy := none
  deriving Repr, DecidableEq

/-- `securityv1.ImagePolicyStatus`. -/
structure ImagePolicyStatus where
  latestDigest : String := ""
  lastChecked : Option Nat := none
  complianceStatus : String := ""
  monitoredDeployments : List DeploymentStatus := []
  totalDeployments : Nat := 0
  compliantDeployments : Nat := 0
  conditions : List Condition := []
  deriving Repr, DecidableEq

/-! ## Rekor client (`internal/rekor/client.go`) -/

/-- The issuer of the single simulated transparency-log entry. -/
def mockIssuer : String := "https://token.actions.githubusercontent.com"

/-- The attestation type of the single simulated transparency-log entry. -/
def mockAttestationType : String := "slsaprovenance"

/-- `(*rekor.Client).matchesPolicy`: Go mutates `result.Error` and returns a
`bool`; modelled as returning the flag together with the updated result. -/
def matchesPolicy (result : AttestationResult) (allowedIssuers requiredTypes : List String) :
    Bool × AttestationResult :=
  if allowedIssuers.length > 0 && !(allowedIssuers.contains result.issuer) then
    (false, { result with
      error := "issuer " ++ result.issuer ++ " not in allowed list " ++ goSliceFmt allowedIssuers })
  else if requiredTypes.length > 0 && !(requiredTypes.contains result.attestationType) then
    (false, { result with
      error := "attestation type " ++ result.attestationType ++ " not in required list " ++
        goSliceFmt requiredTypes })
  else
    (true, result)

/-- `(*rekor.Client).VerifyAttestation` (the Go function's second return value
is always `nil`, so the `error` component is dropped). -/
def rekorVerifyAttestation (imageDigest : String)
    (allowedIssuers requiredTypes : List String) : AttestationResult :=
  let digestParts := goSplitChar imageDigest ':'
  if digestParts.length != 2 || digestParts.headD "" != "sha256" then
    { verified := false, error := "invalid digest format: " ++ imageDigest }
  else
    let result : AttestationResult :=
      { verified := false
        attestationType := mockAttestationType
        issuer := mockIssuer
        logIndex := 566466542
        error := "Rekor search not fully implemented - using mock verification" }
    if digestParts.length == 2 && (digestParts.getD 1 "").length == 64 then
      match matchesPolicy result allowedIssuers requiredTypes with
      | (true, r) => { r with verified := true, error := "", logIndex := 123456789 }
      | (false, r) => r
    else
      { result with error := "Invalid digest format for Rekor verification: " ++ imageDigest }

/-! ## Controller helpers (`imagepolicy_controller.go`) -/

/-- The repository-match test applied to one container image; this exact pair
of `strings.HasPrefix` tests appears in `deploymentUsesRepository`,
`analyzeDeploymentCompliance` and `remediateDeployment`. -/
def imageMatchesRepository (image repository : String) : Bool :=
  goStartsWith image repository || goStartsWith image ("docker.io/" ++ repository)

/-- `deploymentUsesRepository`. -/
def deploymentUsesRepository (d : Deployment) (repository : String) : Bool :=
  d.containers.any (fun im => imageMatchesRepository im repository)

/-- Go map lookup on the deployment's labels (first matching key). -/
def lookupLabel (labels : List (String × String)) (key : String) : Option String :=
  (labels.find? (fun p => p.1 == key)).map (fun p => p.2)

/-- `hasAutomationEnabled`: the deployment carries the label `automation: "true"`. -/
def hasAutomationEnabled (d : Deployment) : Bool :=
  match lookupLabel d.labels "automation" with
  | some v => v == "true"
  | none => false

/-- The digest-comparison phase of `analyzeDeploymentCompliance` (lines up to
the attestation block): initialize `isCompliant := true`, inspect the first
container whose image matches the repository, and classify it. -/
def digestPhaseStatus (d : Deployment) (repository latestDigest : String)
    (enforceLatest : Bool) (now : Nat) : DeploymentStatus :=
  let base : DeploymentStatus :=
    { name := d.name, ns := d.ns, currentDigest := "", isCompliant := true, lastUpdated := now }
  match d.containers.find? (fun im => imageMatchesRepository im repository) with
  | none => base
  | some im =>
    if goContains im "@sha256:" then
      let parts := goSplitChar im '@'
      let st := if parts.length == 2 then { base with currentDigest := parts.getD 1 "" } else base
      if enforceLatest then
        if latestDigest == "" then
          { st with isCompliant := false }
        else if st.currentDigest != latestDigest then
          { st with isCompliant := false }
        else
          { st with isCompliant := true }
      else st
    else
      let st := { base with currentDigest := "tag-based" }
      if enforceLatest then { st with isCompliant := false } else st

/-- `verifyAttestation` on the reconciler; `rekorAvailable` models whether
`r.RekorClient` is non-nil. -/
def verifyAttestation (rekorAvailable : Bool) (imageDigest : String)
    (policy : AttestationPolicy) : AttestationResult :=
  if imageDigest == "" then
    { verified := false, error := "no image digest available for verification" }
  else if !rekorAvailable then
    { verified := false, error := "Rekor client not initialized" }
  else
    rekorVerifyAttestation imageDigest (policy.allowedIssuers.getD [])
      (policy.requiredTypes.getD [])

/-- Does the optional attestation policy require attestation
(`attestationPolicy != nil && attestationPolicy.RequireAttestation != nil &&
*attestationPolicy.RequireAttestation`)? -/
def requiresAttestation : Option AttestationPolicy → Bool
  | none => false
  | some p => p.requireAttestation.getD false

/-- `analyzeDeploymentCompliance`. -/
def analyzeDeploymentCompliance (d : Deployment) (repository latestDigest : String)
    (enforceLatest : Bool) (attPolicy : Option AttestationPolicy)
    (rekorAvailable : Bool) (now : Nat) : DeploymentStatus :=
  let st := digestPhaseStatus d repository latestDigest enforceLatest now
  match attPolicy with
  | none => st
  | some p =>
    if p.requireAttestation.getD false then
      let ar : AttestationResult :=
        if st.currentDigest == "tag-based" || st.currentDigest == "" then
          { verified := false
            error := "Cannot verify attestations for tag-based images - digest required" }
        else
          verifyAttestation rekorAvailable st.currentDigest p
      let det : AttestationDetails :=
        { verified := ar.verified
          attestationType := ar.attestationType
          issuer := ar.issuer
          lastChecked := now
          error := ar.error
          rekorLogIndex := if ar.logIndex > 0 then some ar.logIndex else none }
      let st := { st with
        hasValidAttestation := some ar.verified
        attestationDetails := some det }
      if !ar.verified then { st with isCompliant := false } else st
    else st

/-- The per-container rewrite performed by `remediateDeployment`. -/
def remediateContainerImage (image repository latestDigest : String) : String :=
  if imageMatchesRepository image repository then
    let repoName := if goStartsWith image "docker.io/" then "docker.io/" ++ repository else repository
    repoName ++ "@" ++ latestDigest
  else image

/-- `remediateDeployment` (the cluster `Update` call is external; the function
returns the deployment it would write, or the no-containers error). -/
def remediateDeployment (d : Deployment) (repository latestDigest : String) :
    Except String Deployment :=
  if !(d.containers.any (fun im => imageMatchesRepository im repository)) then
    Except.error ("no containers found using repository " ++ repository)
  else
    Except.ok { d with
      containers := d.containers.map (fun im => remediateContainerImage im repository latestDigest) }

/-- `updateCondition`: merge a condition into the list by `type`, keeping the
stored `lastTransitionTime` when the status is unchanged. -/
def updateCondition : List Condition → Nat → String → String → String → String → List Condition
  | [], now, t, s, r, m => [⟨t, s, now, r, m⟩]
  | c :: rest, now, t, s, r, m =>
    if c.type == t then
      (if c.status != s then (⟨t, s, now, r, m⟩ : Condition)
       else ⟨t, s, c.lastTransitionTime, r, m⟩) :: rest
    else
      c :: updateCondition rest now t s r m

/-! ## Digest resolver (`getLatestDigestFromDockerHub`, `fetchDigestFromDockerHub`) -/

/-- The external HTTP world one `fetchDigestFromDockerHub` attempt observes:
the auth `GET` outcome, token decoding, the manifest `GET` outcome, and the
`Docker-Content-Digest` response header. -/
structure FetchEnv where
  authNetErr : Option String := none
  authStatus : Nat := 200
  tokenDecodeErr : Option String := none
  manifestNetErr : Option String := none
  manifestStatus : Nat := 200
  digestHeader : String := ""
  deriving Repr, DecidableEq

/-- `fetchDigestFromDockerHub`: a single attempt, as a function of the
observed HTTP outcomes. Only a 429 auth status is checked before token
decoding; the manifest response is checked for 429, then for non-200. -/
def fetchDigestFromDockerHub (e : FetchEnv) : Except String String :=
  match e.authNetErr with
  | some m => Except.error ("failed to get auth token: " ++ m)
  | none =>
    if e.authStatus == 429 then
      Except.error "DockerHub auth API returned status 429"
    else
      match e.tokenDecodeErr with
      | some m => Except.error ("failed to decode token response: " ++ m)
      | none =>
        match e.manifestNetErr with
        | some m => Except.error ("failed to get manifest: " ++ m)
        | none =>
          if e.manifestStatus == 429 then
            Except.error "DockerHub registry API returned status 429"
          else if e.manifestStatus != 200 then
            Except.error ("DockerHub API returned status " ++ toString e.manifestStatus)
          else if e.digestHeader == "" then
            Except.error "no digest found in response headers"
          else
            Except.ok e.digestHeader

/-- The retry test in `getLatestDigestFromDockerHub`:
`strings.Contains(err.Error(), "status 429")`. -/
def retryable (msg : String) : Bool := goContains msg "status 429"

/-- `baseDelay` in seconds. -/
def baseDelay : Nat := 5

/-- `maxRetries`. -/
def maxRetries : Nat := 3

/-- The error produced when every attempt was rate-limited. -/
def rateLimitExhaustedMsg : String :=
  "failed to fetch digest after 3 attempts due to rate limiting"

/-- Observable trace of one `getLatestDigestFromDockerHub` call: the returned
value, how many fetch attempts were made, and the `time.Sleep` durations (in
seconds) in order. -/
structure ResolveTrace where
  result : Except String String
  attemptsMade : Nat
  sleeps : List Nat
  deriving Repr

/-- The retry loop body of `getLatestDigestFromDockerHub`: `attempt` is the
Go loop index, the second argument the remaining iterations
(`maxRetries - attempt`); before every attempt with `attempt > 0` the code
sleeps `attempt * baseDelay` seconds. -/
def resolveAux (results : Nat → Except String String) : Nat → Nat → ResolveTrace
  | _, 0 => { result := Except.error rateLimitExhaustedMsg, attemptsMade := 0, sleeps := [] }
  | attempt, remaining + 1 =>
    let sleepsHere := if attempt > 0 then [attempt * baseDelay] else []
    match results attempt with
    | Except.ok d =>
      { result := Except.ok d, attemptsMade := 1, sleeps := sleepsHere }
    | Except.error msg =>
      if retryable msg then
        let rest := resolveAux results (attempt + 1) remaining
        { result := rest.result
          attemptsMade := 1 + rest.attemptsMade
          sleeps := sleepsHere ++ rest.sleeps }
      else
        { result := Except.error msg, attemptsMade := 1, sleeps := sleepsHere }

/-- `getLatestDigestFromDockerHub`, with attempt `i` observing HTTP world
`envs i`. -/
def getLatestDigestFromDockerHub (envs : Nat → FetchEnv) : ResolveTrace :=
  resolveAux (fun i => fetchDigestFromDockerHub (envs i)) 0 maxRetries

/-! ## Workload scanner (`getNamespacesToMonitor`, `findDeploymentsToMonitor`) -/

/-- A namespace object: name plus labels. -/
structure K8sNamespace where
  name : String
  labels : List (String × String) := []

/-- `getNamespacesToMonitor`: a selector is modelled by its (external)
evaluation function on a label set; `allNs` is the cluster's namespace list. -/
def getNamespacesToMonitor (sel : Option (List (String × String) → Bool))
    (allNs : List K8sNamespace) : List String :=
  match sel with
  | none => allNs.map K8sNamespace.name
  | some s => (allNs.filter (fun n => s n.labels)).map K8sNamespace.name

/-- The core filtering step of `findDeploymentsToMonitor`: `listed` is what
the external per-namespace `List` calls (already narrowed by the deployment
selector) returned; the controller keeps those using the repository. -/
def findDeploymentsToMonitor (listed : List Deployment) (repository : String) : List Deployment :=
  listed.filter (fun d => deploymentUsesRepository d repository)

/-! ## Reconcile (`Reconcile`) -/

/-- The externally-determined inputs of one reconcile cycle. -/
structure ReconcileEnv where
  now : Nat
  resolveResult : Except String String
  listedDeployments : List Deployment
  rekorAvailable : Bool

/-- `shouldCheck`: `LastChecked` unset, or `now - lastChecked > checkInterval`. -/
def shouldCheckDigest (lastChecked : Option Nat) (now checkInterval : Nat) : Bool :=
  match lastChecked with
  | none => true
  | some t => now - t > checkInterval

/-- The ImagePolicy status after the digest-refresh step of `Reconcile`:
on success, `latestDigest`/`lastChecked` are updated; on failure, a Degraded
condition is recorded and `complianceStatus` is set to Error (the stored
`latestDigest` is untouched); if the check was skipped, nothing changes. -/
def statusAfterFetch (spec : ImagePolicySpec) (prev : ImagePolicyStatus)
    (env : ReconcileEnv) : ImagePolicyStatus :=
  if shouldCheckDigest prev.lastChecked env.now (spec.checkIntervalSeconds.getD 60) then
    match env.resolveResult with
    | Except.error e =>
      { prev with
        conditions := updateCondition prev.conditions env.now ConditionTypeDegraded "True"
          "DockerHubError" ("Failed to fetch digest: " ++ e)
        complianceStatus := ComplianceStatusError }
    | Except.ok d => { prev with latestDigest := d, lastChecked := some env.now }
  else prev

/-- The value of the local Go variable `latestDigest` for the rest of the
cycle: the fetched digest on success, `""` on failure (Go's multi-assignment
`latestDigest, err = r.getLatestDigestFromDockerHub(...)` stores the
function's `""` error-path result), the cached digest if the check was
skipped. -/
def effectiveDigest (spec : ImagePolicySpec) (prev : ImagePolicyStatus)
    (env : ReconcileEnv) : String :=
  if shouldCheckDigest prev.lastChecked env.now (spec.checkIntervalSeconds.getD 60) then
    match env.resolveResult with
    | Except.error _ => ""
    | Except.ok d => d
  else prev.latestDigest

/-- `enforceLatest` with its default. -/
def effectiveEnforce (spec : ImagePolicySpec) : Bool :=
  spec.enforceLatestDigest.getD true

/-- Outcome of one reconcile cycle: the status that is written at the end,
the remediations that were attempted (with each attempt's result), and the
requeue delay in seconds. -/
structure ReconcileOutcome where
  status : ImagePolicyStatus
  remediations : List (Deployment × Except String Deployment)
  requeueAfterSeconds : Nat

/-- `Reconcile`, as the pure state transition of one cycle over the
environment `env`. -/
def reconcile (spec : ImagePolicySpec) (prev : ImagePolicyStatus)
    (env : ReconcileEnv) : ReconcileOutcome :=
  let checkInterval := spec.checkIntervalSeconds.getD 60
  let enforceLatest := effectiveEnforce spec
  let st0 := statusAfterFetch spec prev env
  let latestDigest := effectiveDigest spec prev env
  let deployments : List Deployment :=
    findDeploymentsToMonitor env.listedDeployments spec.repository
  let analyzed : List (Deployment × DeploymentStatus) := deployments.map (fun d =>
    (d, analyzeDeploymentCompliance d spec.repository latestDigest enforceLatest
      spec.attestationPolicy env.rekorAvailable env.now))
  let compliantCount := (analyzed.filter (fun p => p.2.isCompliant)).length
  let remediations := analyzed.filterMap (fun p =>
    if !p.2.isCompliant && enforceLatest && hasAutomationEnabled p.1 && latestDigest != "" then
      some (p.1, remediateDeployment p.1 spec.repository latestDigest)
    else none)
  let st1 := { st0 with
    monitoredDeployments := analyzed.map Prod.snd
    totalDeployments := deployments.length
    compliantDeployments := compliantCount }
  let st2 :=
    if deployments.length == 0 then
      { st1 with
        complianceStatus := ComplianceStatusUnknown
        conditions := updateCondition st1.conditions env.now ConditionTypeReady "True"
          "NoDeployments" "No deployments found matching the policy" }
    else if compliantCount == deployments.length then
      { st1 with
        complianceStatus := ComplianceStatusCompliant
        conditions := updateCondition st1.conditions env.now ConditionTypeReady "True"
          "AllCompliant" "All monitored deployments are compliant" }
    else
      { st1 with
        complianceStatus := ComplianceStatusNonCompliant
        conditions := updateCondition st1.conditions env.now ConditionTypeReady "True"
          "NonCompliant" (toString (deployments.length - compliantCount) ++ " of " ++
            toString deployments.length ++ " deployments are non-compliant") }
  { status := st2, remediations := remediations, requeueAfterSeconds := checkInterval }

/-! ## Concrete example inputs (used by witnesses and counterexamples) -/

/-- The empty (freshly created) ImagePolicy status. -/
def emptyStatus : ImagePolicyStatus := {}

/-- A policy spec monitoring repository `jon/app`, all optional fields unset. -/
def specJonApp : ImagePolicySpec := { repository := "jon/app" }

/-- The auth-endpoint rate-limit error message produced by
`fetchDigestFromDockerHub`. -/
def dockerHub429 : String := "DockerHub auth API returned status 429"

/-- A cycle environment in which digest resolution fails and no deployments
are listed. -/
def envResolveFailNoDeps : ReconcileEnv :=
  { now := 100, resolveResult := Except.error dockerHub429
    listedDeployments := [], rekorAvailable := false }

/-- A deployment whose image is pinned to the digest `sha256:aaa`. -/
def depCachedMatch : Deployment :=
  { name := "web", ns := "demo", containers := ["jon/app@sha256:aaa"] }

/-- A previous status with cached digest `sha256:aaa` and `lastChecked` unset. -/
def prevCached : ImagePolicyStatus := { latestDigest := "sha256:aaa" }

/-- A cycle environment in which digest resolution fails while one matching
deployment, pinned to the previously cached digest, is listed. -/
def envResolveFailOneDep : ReconcileEnv :=
  { now := 100, resolveResult := Except.error dockerHub429
    listedDeployments := [depCachedMatch], rekorAvailable := false }

/-- An HTTP world in which every attempt hits a 429 on the auth endpoint. -/
def envsAll429 : Nat → FetchEnv := fun _ => { authStatus := 429 }

/-- A deployment with a tag-based image and the automation opt-in label. -/
def depTag : Deployment :=
  { name := "web", ns := "demo", labels := [("automation", "true")]
    containers := ["jon/app:latest"] }

/-- A deployment using an unrelated repository. -/
def depOther : Deployment :=
  { name := "web", ns := "demo", containers := ["other/app:1"] }

/-- An attestation policy that requires attestation, with empty allow-lists. -/
def attReq : AttestationPolicy := { requireAttestation := some true }

/-- A cycle environment in which resolution succeeds with `sha256:bbb` and one
tag-based automated deployment is listed. -/
def envOkTagDep : ReconcileEnv :=
  { now := 100, resolveResult := Except.ok "sha256:bbb"
    listedDeployments := [depTag], rekorAvailable := false }

/-- Sixty-four `a` characters: a well-formed digest body. -/
def hexA64 : String := String.mk (List.replicate 64 'a')

/-! ## Helper lemmas -/

/-- The retry loop makes at most as many attempts as it has fuel. -/
theorem resolveAux_attemptsMade_le (f : Nat → Except String String) :
    ∀ n a, (resolveAux f a n).attemptsMade ≤ n := by
  intro n
  induction n with
  | zero => intro a; simp [resolveAux]
  | succ k ih =>
    intro a
    simp only [resolveAux]
    cases f a with
    | ok d => simp
    | error msg =>
      by_cases hr : retryable msg = true
      · simp [hr]; have := ih (a + 1); omega
      · simp [hr]

/-- Splitting a list that does not contain the separator yields the list
itself as the single field. -/
theorem splitChar_of_not_mem (sep : Char) (l : List Char) (h : ∀ c ∈ l, c ≠ sep) :
    splitChar sep l = [l] := by
  induction l with
  | nil => rfl
  | cons c rest ih =>
    have hc : (c == sep) = false := by
      simpa using h c (List.mem_cons_self c rest)
    simp [splitChar, hc, ih (fun x hx => h x (List.mem_cons_of_mem _ hx))]

/-- Splitting a list whose first separator occurrence follows the
separator-free block `xs` peels off `xs` as the first field. -/
theorem splitChar_append_sep (sep : Char) (xs ys : List Char) (h : ∀ c ∈ xs, c ≠ sep) :
    splitChar sep (xs ++ sep :: ys) = xs :: splitChar sep ys := by
  induction xs with
  | nil => simp [splitChar]
  | cons c rest ih =>
    have hc : (c == sep) = false := by
      simpa using h c (List.mem_cons_self c rest)
    simp [splitChar, hc, ih (fun x hx => h x (List.mem_cons_of_mem _ hx))]

/-- Splitting `sha256:<body>` on `:` for a colon-free body. -/
theorem goSplitChar_sha256 (h : String) (hfree : ∀ c ∈ h.toList, c ≠ ':') :
    goSplitChar ("sha256:" ++ h) ':' = ["sha256", h] := by
  have hl : ("sha256:" ++ h).toList = "sha256".toList ++ ':' :: h.toList := by
    simp [String.toList, String.data_append]
  rw [goSplitChar, hl, splitChar_append_sep ':' _ _ (by decide),
    splitChar_of_not_mem ':' _ hfree]
  rfl

/-- When the attestation policy does not require attestation, the analyzer
returns exactly the digest-phase status. -/
theorem analyze_no_attestation (d : Deployment) (repo ld : String) (enf : Bool)
    (attPol : Option AttestationPolicy) (rekor : Bool) (now : Nat)
    (hreq : requiresAttestation attPol = false) :
    analyzeDeploymentCompliance d repo ld enf attPol rekor now =
      digestPhaseStatus d repo ld enf now := by
  cases attPol with
  | none => rfl
  | some p =>
    simp only [requiresAttestation] at hreq
    simp [analyzeDeploymentCompliance, hreq]

/-- Merging a condition whose type is absent appends it with the current time. -/
theorem updateCondition_of_none (conds : List Condition) (now : Nat) (t s r m : String)
    (h : conds.find? (fun x => x.type == t) = none) :
    updateCondition conds now t s r m = conds ++ [⟨t, s, now, r, m⟩] := by
  induction conds with
  | nil => rfl
  | cons a rest ih =>
    rw [List.find?_cons] at h
    by_cases ha : (a.type == t) = true
    · simp [ha] at h
    · simp only [ha, cond_false] at h
      simp [updateCondition, ha, ih h]

/-- Merging a condition whose type is present replaces that entry, keeping
the stored transition time exactly when the status is unchanged, and leaves
the list of types unchanged. -/
theorem updateCondition_of_some (conds : List Condition) (now : Nat) (t s r m : String)
    (c : Condition) (h : conds.find? (fun x => x.type == t) = some c) :
    (updateCondition conds now t s r m).find? (fun x => x.type == t) =
      some ⟨t, s, if c.status == s then c.lastTransitionTime else now, r, m⟩ ∧
    (updateCondition conds now t s r m).map Condition.type = conds.map Condition.type := by
  induction conds with
  | nil => simp at h
  | cons a rest ih =>
    by_cases ha : (a.type == t) = true
    · simp only [List.find?_cons, ha, cond_true] at h
      obtain rfl : a = c := Option.some.inj h
      have hat : a.type = t := by simpa using ha
      by_cases hs : (a.status == s) = true
      · simp [updateCondition, ha, hs, List.find?_cons, bne, hat]
      · simp [updateCondition, ha, hs, List.find?_cons, bne, hat]
    · simp only [List.find?_cons, ha, cond_false] at h
      have := ih h
      simp [updateCondition, ha, List.find?_cons, this.1, this.2]

/-! ## Claims -/

/-- C1: the claim that a failed digest resolution leaves `complianceStatus =
Error` at the end of the cycle is violated by the code: the `Error` value set
mid-cycle is unconditionally overwritten by the count-based aggregation
before the single status write. Concretely, with a failing resolver and no
deployments the persisted status is `Unknown`; in general the persisted
status is always one of `Unknown`/`Compliant`/`NonCompliant`. -/
theorem error_status_overwritten_at_cycle_end :
    (statusAfterFetch specJonApp emptyStatus envResolveFailNoDeps).complianceStatus =
      ComplianceStatusError ∧
    (reconcile specJonApp emptyStatus envResolveFailNoDeps).status.complianceStatus =
      ComplianceStatusUnknown ∧
    ComplianceStatusUnknown ≠ ComplianceStatusError ∧
    ∀ (spec : ImagePolicySpec) (prev : ImagePolicyStatus) (env : ReconcileEnv),
      (reconcile spec prev env).status.complianceStatus = ComplianceStatusUnknown ∨
      (reconcile spec prev env).status.complianceStatus = ComplianceStatusCompliant ∨
      (reconcile spec prev env).status.complianceStatus = ComplianceStatusNonCompliant := by
  refine ⟨rfl, rfl, by decide, ?_⟩
  intro spec prev env
  simp only [reconcile]
  split
  · left; rfl
  · split
    · right; left; rfl
    · right; right; rfl

/-- C2 counterexample: with a cached digest `sha256:aaa`, a failing resolver
and a workload pinned to that cached digest, the stored `latestDigest` is
indeed kept, but the workload is classified non-compliant — the cycle's
analysis ran with the empty digest, not the cached one (with which the same
workload would classify compliant). -/
theorem fetch_error_cached_digest_not_used_cex :
    (reconcile specJonApp prevCached envResolveFailOneDep).status.latestDigest = "sha256:aaa" ∧
    (reconcile specJonApp prevCached envResolveFailOneDep).status.monitoredDeployments =
      [analyzeDeploymentCompliance depCachedMatch "jon/app" "" true none false 100] ∧
    (reconcile specJonApp prevCached envResolveFailOneDep).status.monitoredDeployments.map
      DeploymentStatus.isCompliant = [false] ∧
    (analyzeDeploymentCompliance depCachedMatch "jon/app" "sha256:aaa" true none false 100).isCompliant
      = true :=
  ⟨rfl, rfl, rfl, rfl⟩

/-- C2 (amended): when a digest refresh is attempted and the resolver fails,
the stored `latestDigest` and `lastChecked` fields keep their previous
values, but the cycle's compliance analysis runs with the empty digest (the
Go multi-assignment stores the resolver's `""` error-path result), not with
the previously cached digest. -/
theorem fetch_error_keeps_stored_digest_analysis_empty (spec : ImagePolicySpec)
    (prev : ImagePolicyStatus) (env : ReconcileEnv) (e : String)
    (hs : shouldCheckDigest prev.lastChecked env.now (spec.checkIntervalSeconds.getD 60) = true)
    (he : env.resolveResult = Except.error e) :
    (reconcile spec prev env).status.latestDigest = prev.latestDigest ∧
    (reconcile spec prev env).status.lastChecked = prev.lastChecked ∧
    effectiveDigest spec prev env = "" ∧
    (reconcile spec prev env).status.monitoredDeployments =
      (findDeploymentsToMonitor env.listedDeployments spec.repository).map
        (fun d => analyzeDeploymentCompliance d spec.repository "" (effectiveEnforce spec)
          spec.attestationPolicy env.rekorAvailable env.now) := by
  have hed : effectiveDigest spec prev env = "" := by
    simp [effectiveDigest, hs, he]
  have hsf : (statusAfterFetch spec prev env).latestDigest = prev.latestDigest ∧
      (statusAfterFetch spec prev env).lastChecked = prev.lastChecked := by
    simp [statusAfterFetch, hs, he]
  refine ⟨?_, ?_, hed, ?_⟩ <;>
    · simp only [reconcile]
      split
      · simp_all [List.map_map, Function.comp]
      · split <;> simp_all [List.map_map, Function.comp]

/-- C2 witness: the amended statement at the concrete failing-cycle input. -/
theorem fetch_error_keeps_stored_digest_analysis_empty_witness :
    (reconcile specJonApp prevCached envResolveFailOneDep).status.latestDigest =
      prevCached.latestDigest ∧
    (reconcile specJonApp prevCached envResolveFailOneDep).status.lastChecked =
      prevCached.lastChecked ∧
    effectiveDigest specJonApp prevCached envResolveFailOneDep = "" ∧
    (reconcile specJonApp prevCached envResolveFailOneDep).status.monitoredDeployments =
      (findDeploymentsToMonitor envResolveFailOneDep.listedDeployments specJonApp.repository).map
        (fun d => analyzeDeploymentCompliance d specJonApp.repository ""
          (effectiveEnforce specJonApp) specJonApp.attestationPolicy
          envResolveFailOneDep.rekorAvailable envResolveFailOneDep.now) :=
  fetch_error_keeps_stored_digest_analysis_empty specJonApp prevCached envResolveFailOneDep
    dockerHub429 rfl rfl

/-- C3: the resolver makes at most 3 attempts; the two 429 outcomes of a
fetch attempt are the retryable ones; a first-attempt success returns at
once with no sleeps; a non-retryable error at attempts 1, 2 or 3 is returned
immediately (5s sleep before attempt 2 and a further 10s before attempt 3
having occurred); success after two 429s returns the digest after sleeping
5s + 10s; and three 429s yield the distinct rate-limit-exhaustion error and
no digest. -/
theorem digest_retry_policy (envs : Nat → FetchEnv) :
    (getLatestDigestFromDockerHub envs).attemptsMade ≤ 3 ∧
    retryable "DockerHub auth API returned status 429" = true ∧
    retryable "DockerHub registry API returned status 429" = true ∧
    (∀ d, fetchDigestFromDockerHub (envs 0) = Except.ok d →
      (getLatestDigestFromDockerHub envs).result = Except.ok d ∧
      (getLatestDigestFromDockerHub envs).attemptsMade = 1 ∧
      (getLatestDigestFromDockerHub envs).sleeps = []) ∧
    (∀ m, fetchDigestFromDockerHub (envs 0) = Except.error m → retryable m = false →
      (getLatestDigestFromDockerHub envs).result = Except.error m ∧
      (getLatestDigestFromDockerHub envs).attemptsMade = 1 ∧
      (getLatestDigestFromDockerHub envs).sleeps = []) ∧
    (∀ m0 m, fetchDigestFromDockerHub (envs 0) = Except.error m0 → retryable m0 = true →
      fetchDigestFromDockerHub (envs 1) = Except.error m → retryable m = false →
      (getLatestDigestFromDockerHub envs).result = Except.error m ∧
      (getLatestDigestFromDockerHub envs).attemptsMade = 2 ∧
      (getLatestDigestFromDockerHub envs).sleeps = [5]) ∧
    (∀ m0 m1 m, fetchDigestFromDockerHub (envs 0) = Except.error m0 → retryable m0 = true →
      fetchDigestFromDockerHub (envs 1) = Except.error m1 → retryable m1 = true →
      fetchDigestFromDockerHub (envs 2) = Except.error m → retryable m = false →
      (getLatestDigestFromDockerHub envs).result = Except.error m ∧
      (getLatestDigestFromDockerHub envs).attemptsMade = 3 ∧
      (getLatestDigestFromDockerHub envs).sleeps = [5, 10]) ∧
    (∀ m0 m1 d, fetchDigestFromDockerHub (envs 0) = Except.error m0 → retryable m0 = true →
      fetchDigestFromDockerHub (envs 1) = Except.error m1 → retryable m1 = true →
      fetchDigestFromDockerHub (envs 2) = Except.ok d →
      (getLatestDigestFromDockerHub envs).result = Except.ok d ∧
      (getLatestDigestFromDockerHub envs).attemptsMade = 3 ∧
      (getLatestDigestFromDockerHub envs).sleeps = [5, 10]) ∧
    (∀ m0 m1 m2, fetchDigestFromDockerHub (envs 0) = Except.error m0 → retryable m0 = true →
      fetchDigestFromDockerHub (envs 1) = Except.error m1 → retryable m1 = true →
      fetchDigestFromDockerHub (envs 2) = Except.error m2 → retryable m2 = true →
      (getLatestDigestFromDockerHub envs).result = Except.error rateLimitExhaustedMsg ∧
      (getLatestDigestFromDockerHub envs).attemptsMade = 3 ∧
      (getLatestDigestFromDockerHub envs).sleeps = [5, 10]) := by
  refine ⟨resolveAux_attemptsMade_le _ maxRetries 0, by decide, by decide, ?_, ?_, ?_, ?_, ?_, ?_⟩
  · intro d h
    simp [getLatestDigestFromDockerHub, maxRetries, resolveAux, h]
  · intro m h hr
    simp [getLatestDigestFromDockerHub, maxRetries, resolveAux, h, hr]
  · intro m0 m h0 r0 h hr
    simp [getLatestDigestFromDockerHub, maxRetries, resolveAux, h0, r0, h, hr, baseDelay]
  · intro m0 m1 m h0 r0 h1 r1 h hr
    simp [getLatestDigestFromDockerHub, maxRetries, resolveAux, h0, r0, h1, r1, h, hr, baseDelay]
  · intro m0 m1 d h0 r0 h1 r1 h
    simp [getLatestDigestFromDockerHub, maxRetries, resolveAux, h0, r0, h1, r1, h, baseDelay]
  · intro m0 m1 m2 h0 r0 h1 r1 h2 r2
    simp [getLatestDigestFromDockerHub, maxRetries, resolveAux, h0, r0, h1, r1, h2, r2, baseDelay]

/-- C3 witness: three straight auth-endpoint 429s exhaust the retry budget. -/
theorem digest_retry_policy_witness :
    (getLatestDigestFromDockerHub envsAll429).result = Except.error rateLimitExhaustedMsg ∧
    (getLatestDigestFromDockerHub envsAll429).attemptsMade = 3 ∧
    (getLatestDigestFromDockerHub envsAll429).sleeps = [5, 10] := by
  have h := digest_retry_policy envsAll429
  exact h.2.2.2.2.2.2.2.2 dockerHub429 dockerHub429 dockerHub429
    rfl (by decide) rfl (by decide) rfl (by decide)

/-- C4: for a workload whose first matching container image is
digest-qualified (contains `@sha256:` and splits at `@` into two parts),
under `enforceLatestDigest = true` the extracted digest is stored as
`currentDigest`; an empty `latestDigest` or a mismatch yields non-compliant
and an exact match yields compliant. For a tag-qualified reference the
sentinel `tag-based` is stored and the workload is non-compliant exactly when
`enforceLatestDigest` is true. (Attestation not required.) -/
theorem digest_and_tag_classification (d : Deployment) (repo latestDigest im : String)
    (attPol : Option AttestationPolicy) (rekor : Bool) (now : Nat)
    (hreq : requiresAttestation attPol = false)
    (hfind : d.containers.find? (fun i => imageMatchesRepository i repo) = some im) :
    (goContains im "@sha256:" = true → (goSplitChar im '@').length = 2 →
      ((analyzeDeploymentCompliance d repo latestDigest true attPol rekor now).currentDigest =
         (goSplitChar im '@').getD 1 "" ∧
       (latestDigest = "" →
         (analyzeDeploymentCompliance d repo latestDigest true attPol rekor now).isCompliant = false) ∧
       ((goSplitChar im '@').getD 1 "" = latestDigest → latestDigest ≠ "" →
         (analyzeDeploymentCompliance d repo latestDigest true attPol rekor now).isCompliant = true) ∧
       ((goSplitChar im '@').getD 1 "" ≠ latestDigest →
         (analyzeDeploymentCompliance d repo latestDigest true attPol rekor now).isCompliant = false))) ∧
    (goContains im "@sha256:" = false → ∀ enf : Bool,
      (analyzeDeploymentCompliance d repo latestDigest enf attPol rekor now).currentDigest =
        "tag-based" ∧
      (analyzeDeploymentCompliance d repo latestDigest enf attPol rekor now).isCompliant = !enf) := by
  rw [analyze_no_attestation d repo latestDigest true attPol rekor now hreq]
  constructor
  · intro hcon hlen
    obtain ⟨a, b, hab⟩ := List.length_eq_two.mp hlen
    rw [hab]
    by_cases hld : latestDigest = ""
    · subst hld
      simp [digestPhaseStatus, hfind, hcon, hab]
    · by_cases hdig : b = latestDigest
      · simp [digestPhaseStatus, hfind, hcon, hab, hdig, hld]
      · simp [digestPhaseStatus, hfind, hcon, hab, hdig, hld]
  · intro hcon enf
    rw [analyze_no_attestation d repo latestDigest enf attPol rekor now hreq]
    cases enf <;> simp [digestPhaseStatus, hfind, hcon]

/-- C4 witness: a workload pinned to the current latest digest is compliant. -/
theorem digest_and_tag_classification_witness :
    (analyzeDeploymentCompliance depCachedMatch "jon/app" "sha256:aaa" true none false 7).isCompliant
      = true := by
  have h := (digest_and_tag_classification depCachedMatch "jon/app" "sha256:aaa"
    "jon/app@sha256:aaa" none false 7 rfl (by decide)).1 (by decide) (by decide)
  exact h.2.2.1 (by decide) (by decide)

/-- C5: when attestation is required, a `tag-based` or empty `currentDigest`
yields a fail-closed result (`hasValidAttestation = some false`, descriptive
error, workload non-compliant); the verifier itself fails closed on an empty
digest and on an absent Rekor client; and an unverified attestation result
always forces `isCompliant = false`. -/
theorem attestation_fail_closed (d : Deployment) (repo ld dig : String) (enf rekor : Bool)
    (p : AttestationPolicy) (now : Nat) :
    (p.requireAttestation.getD false = true →
      ((digestPhaseStatus d repo ld enf now).currentDigest = "tag-based" ∨
       (digestPhaseStatus d repo ld enf now).currentDigest = "") →
      ((analyzeDeploymentCompliance d repo ld enf (some p) rekor now).hasValidAttestation =
        some false ∧
       (analyzeDeploymentCompliance d repo ld enf (some p) rekor now).isCompliant = false ∧
       (analyzeDeploymentCompliance d repo ld enf (some p) rekor now).attestationDetails =
         some ⟨false, "", "", now,
           "Cannot verify attestations for tag-based images - digest required", none⟩)) ∧
    ((verifyAttestation rekor "" p).verified = false ∧
     (verifyAttestation rekor "" p).error = "no image digest available for verification") ∧
    ((verifyAttestation false dig p).verified = false ∧
     (dig ≠ "" → (verifyAttestation false dig p).error = "Rekor client not initialized")) ∧
    (p.requireAttestation.getD false = true →
      (analyzeDeploymentCompliance d repo ld enf (some p) rekor now).hasValidAttestation =
        some false →
      (analyzeDeploymentCompliance d repo ld enf (some p) rekor now).isCompliant = false) := by
  refine ⟨?_, ?_, ?_, ?_⟩
  · intro hreq hdig
    have hcond : ((digestPhaseStatus d repo ld enf now).currentDigest == "tag-based" ||
        (digestPhaseStatus d repo ld enf now).currentDigest == "") = true := by
      rcases hdig with h | h <;> simp [h]
    simp [analyzeDeploymentCompliance, hreq, hcond]
  · simp [verifyAttestation]
  · constructor
    · by_cases hd : dig = "" <;> simp [verifyAttestation, hd]
    · intro hd; simp [verifyAttestation, hd]
  · intro hreq hval
    by_cases hcond : ((digestPhaseStatus d repo ld enf now).currentDigest == "tag-based" ||
        (digestPhaseStatus d repo ld enf now).currentDigest == "") = true
    · simp [analyzeDeploymentCompliance, hreq, hcond]
    · rw [Bool.not_eq_true] at hcond
      by_cases hver : (verifyAttestation rekor
          (digestPhaseStatus d repo ld enf now).currentDigest p).verified = true
      · exfalso
        simp [analyzeDeploymentCompliance, hreq, hcond, hver] at hval
      · rw [Bool.not_eq_true] at hver
        simp [analyzeDeploymentCompliance, hreq, hcond, hver]

/-- C5 witness: a tag-based workload under a require-attestation policy is
non-compliant with a fail-closed attestation verdict. -/
theorem attestation_fail_closed_witness :
    (analyzeDeploymentCompliance depTag "jon/app" "sha256:aaa" true (some attReq) false 7).hasValidAttestation = some false ∧
    (analyzeDeploymentCompliance depTag "jon/app" "sha256:aaa" true (some attReq) false 7).isCompliant = false := by
  have h := (attestation_fail_closed depTag "jon/app" "sha256:aaa" "x" true false attReq 7).1
    (by decide) (Or.inl (by decide))
  exact ⟨h.1, h.2.1⟩

/-- C6: a remediation for `d` is attempted in a cycle exactly when `d` is a
monitored workload that analyzed non-compliant, enforcement is on, `d`
carries the automation opt-in label, and the cycle's digest is non-empty;
`remediateDeployment` errors exactly when no container matches, and
otherwise rewrites every matching container to
`(docker.io/)repository@latestDigest`, choosing the `docker.io/`-qualified
form exactly when the original image starts with `docker.io/`. -/
theorem remediation_preconditions_and_rewrite (spec : ImagePolicySpec)
    (prev : ImagePolicyStatus) (env : ReconcileEnv) (d : Deployment)
    (r : Except String Deployment) (d2 : Deployment) (repo dig : String) :
    ((d, r) ∈ (reconcile spec prev env).remediations ↔
      (d ∈ findDeploymentsToMonitor env.listedDeployments spec.repository ∧
       (analyzeDeploymentCompliance d spec.repository (effectiveDigest spec prev env)
         (effectiveEnforce spec) spec.attestationPolicy env.rekorAvailable env.now).isCompliant
           = false ∧
       effectiveEnforce spec = true ∧
       hasAutomationEnabled d = true ∧
       effectiveDigest spec prev env ≠ "" ∧
       r = remediateDeployment d spec.repository (effectiveDigest spec prev env))) ∧
    (remediateDeployment d2 repo dig =
        Except.error ("no containers found using repository " ++ repo) ↔
      ∀ im ∈ d2.containers, imageMatchesRepository im repo = false) ∧
    ((∃ im ∈ d2.containers, imageMatchesRepository im repo = true) →
      remediateDeployment d2 repo dig = Except.ok { d2 with
        containers := d2.containers.map (fun im =>
          if imageMatchesRepository im repo then
            (if goStartsWith im "docker.io/" then "docker.io/" ++ repo else repo) ++ "@" ++ dig
          else im) }) := by
  refine ⟨?_, ?_, ?_⟩
  · simp only [reconcile]
    rw [List.mem_filterMap]
    constructor
    · rintro ⟨p, hp, hsome⟩
      rw [List.mem_map] at hp
      obtain ⟨a, ha, rfl⟩ := hp
      by_cases hc : (!(analyzeDeploymentCompliance a spec.repository
          (effectiveDigest spec prev env) (effectiveEnforce spec) spec.attestationPolicy
          env.rekorAvailable env.now).isCompliant &&
          effectiveEnforce spec && hasAutomationEnabled a &&
          (effectiveDigest spec prev env != "")) = true
      · rw [if_pos hc] at hsome
        obtain ⟨rfl, rfl⟩ : a = d ∧
            remediateDeployment a spec.repository (effectiveDigest spec prev env) = r := by
          have he := Option.some.inj hsome
          exact ⟨congrArg Prod.fst he, congrArg Prod.snd he⟩
        simp only [Bool.and_eq_true, Bool.not_eq_true', bne_iff_ne, ne_eq] at hc
        exact ⟨ha, hc.1.1.1, hc.1.1.2, hc.1.2, hc.2, rfl⟩
      · rw [if_neg hc] at hsome
        exact absurd hsome (by simp)
    · rintro ⟨hmem, hnc, he, hauto, hdig, rfl⟩
      refine ⟨(d, analyzeDeploymentCompliance d spec.repository (effectiveDigest spec prev env)
        (effectiveEnforce spec) spec.attestationPolicy env.rekorAvailable env.now),
        List.mem_map_of_mem _ hmem, ?_⟩
      rw [he] at hnc
      simp [hnc, he, hauto, hdig]
  · by_cases hm : (d2.containers.any (fun im => imageMatchesRepository im repo)) = true
    · rw [List.any_eq_true] at hm
      obtain ⟨im, him, hmatch⟩ := hm
      constructor
      · intro he
        exfalso
        rw [remediateDeployment] at he
        have : (d2.containers.any (fun im => imageMatchesRepository im repo)) = true :=
          List.any_eq_true.mpr ⟨im, him, hmatch⟩
        simp [this] at he
      · intro hall
        exact absurd hmatch (by simp [hall im him])
    · have hall : ∀ im ∈ d2.containers, imageMatchesRepository im repo = false := by
        intro im him
        by_contra hx
        exact hm (List.any_eq_true.mpr ⟨im, him, by simpa using hx⟩)
      have hmf : (d2.containers.any fun im => imageMatchesRepository im repo) = false := by
        rw [Bool.eq_false_iff]; exact hm
      constructor
      · intro _; exact hall
      · intro _; simp [remediateDeployment, hmf]
  · intro hex
    obtain ⟨im, him, hmatch⟩ := hex
    have hm : (d2.containers.any (fun im => imageMatchesRepository im repo)) = true :=
      List.any_eq_true.mpr ⟨im, him, hmatch⟩
    simp only [remediateDeployment, hm, Bool.not_true, Bool.false_eq_true, if_false]
    rfl

/-- C6 witness: a non-compliant tag-based workload with the automation label
is remediated to the freshly resolved digest in the same cycle. -/
theorem remediation_preconditions_and_rewrite_witness :
    (depTag, remediateDeployment depTag "jon/app" "sha256:bbb") ∈
      (reconcile specJonApp emptyStatus envOkTagDep).remediations ∧
    remediateDeployment depTag "jon/app" "sha256:bbb" =
      Except.ok { depTag with containers := ["jon/app@sha256:bbb"] } := by
  constructor
  · exact (remediation_preconditions_and_rewrite specJonApp emptyStatus envOkTagDep depTag
      (remediateDeployment depTag "jon/app" "sha256:bbb") depTag "jon/app" "sha256:bbb").1.mpr
      ⟨by decide, by decide, by decide, by decide, by decide, rfl⟩
  · exact ((remediation_preconditions_and_rewrite specJonApp emptyStatus envOkTagDep depTag
      (remediateDeployment depTag "jon/app" "sha256:bbb") depTag "jon/app" "sha256:bbb").2.2
      ⟨"jon/app:latest", by decide, by decide⟩).trans rfl

/-- C7: the condition-merge operation appends a brand-new type with
`lastTransitionTime = now`, replaces an existing type keeping the stored
`lastTransitionTime` exactly when the status is unchanged (and leaves the
type list unchanged), and preserves uniqueness of types. -/
theorem condition_merge_types_and_transition_time (conds : List Condition) (now : Nat)
    (t s r m : String) :
    (conds.find? (fun x => x.type == t) = none →
      updateCondition conds now t s r m = conds ++ [⟨t, s, now, r, m⟩]) ∧
    (∀ c, conds.find? (fun x => x.type == t) = some c →
      ((updateCondition conds now t s r m).find? (fun x => x.type == t) =
         some ⟨t, s, if c.status == s then c.lastTransitionTime else now, r, m⟩ ∧
       (updateCondition conds now t s r m).map Condition.type = conds.map Condition.type)) ∧
    ((conds.map Condition.type).Nodup →
      ((updateCondition conds now t s r m).map Condition.type).Nodup) := by
  refine ⟨updateCondition_of_none conds now t s r m,
    fun c hc => updateCondition_of_some conds now t s r m c hc, ?_⟩
  intro hnd
  cases hfind : conds.find? (fun x => x.type == t) with
  | none =>
    rw [updateCondition_of_none conds now t s r m hfind]
    have ht : t ∉ conds.map Condition.type := by
      intro hmem
      rw [List.mem_map] at hmem
      obtain ⟨c, hc, hct⟩ := hmem
      have := List.find?_eq_none.mp hfind c hc
      simp [hct] at this
    simp [List.nodup_append, hnd, ht]
  | some c =>
    rw [(updateCondition_of_some conds now t s r m c hfind).2]
    exact hnd

/-- C7 witness: merging with an unchanged status keeps the stored transition
time; flipping the status stamps the current time. -/
theorem condition_merge_types_and_transition_time_witness :
    (updateCondition [⟨"Ready", "True", 5, "a", "b"⟩] 9 "Ready" "True" "c" "d").find?
      (fun x => x.type == "Ready") = some ⟨"Ready", "True", 5, "c", "d"⟩ ∧
    (updateCondition [⟨"Ready", "True", 5, "a", "b"⟩] 9 "Ready" "False" "c" "d").find?
      (fun x => x.type == "Ready") = some ⟨"Ready", "False", 9, "c", "d"⟩ := by
  constructor
  · have h := ((condition_merge_types_and_transition_time [⟨"Ready", "True", 5, "a", "b"⟩]
      9 "Ready" "True" "c" "d").2.1 ⟨"Ready", "True", 5, "a", "b"⟩ (by decide)).1
    simpa using h
  · have h := ((condition_merge_types_and_transition_time [⟨"Ready", "True", 5, "a", "b"⟩]
      9 "Ready" "False" "c" "d").2.1 ⟨"Ready", "True", 5, "a", "b"⟩ (by decide)).1
    simpa using h

/-- C8: for a well-formed digest `sha256:<64 colon-free characters>`, the
simulated entry is accepted exactly when (`allowedIssuers` is empty or holds
its issuer) and (`requiredTypes` is empty or holds its type); a failed issuer
constraint or type constraint produces `verified = false` with the error
naming that constraint; acceptance returns the entry metadata with an empty
error. -/
theorem rekor_policy_matching (h : String) (allowed required : List String)
    (hfree : ∀ c ∈ h.toList, c ≠ ':') (hlen : h.length = 64) :
    (rekorVerifyAttestation ("sha256:" ++ h) allowed required).verified =
      ((allowed.length == 0 || allowed.contains mockIssuer) &&
       (required.length == 0 || required.contains mockAttestationType)) ∧
    (allowed ≠ [] → allowed.contains mockIssuer = false →
      (rekorVerifyAttestation ("sha256:" ++ h) allowed required).verified = false ∧
      (rekorVerifyAttestation ("sha256:" ++ h) allowed required).error =
        "issuer " ++ mockIssuer ++ " not in allowed list " ++ goSliceFmt allowed) ∧
    ((allowed.length == 0 || allowed.contains mockIssuer) = true → required ≠ [] →
      required.contains mockAttestationType = false →
      (rekorVerifyAttestation ("sha256:" ++ h) allowed required).verified = false ∧
      (rekorVerifyAttestation ("sha256:" ++ h) allowed required).error =
        "attestation type " ++ mockAttestationType ++ " not in required list " ++
          goSliceFmt required) ∧
    ((rekorVerifyAttestation ("sha256:" ++ h) allowed required).verified = true →
      (rekorVerifyAttestation ("sha256:" ++ h) allowed required).error = "" ∧
      (rekorVerifyAttestation ("sha256:" ++ h) allowed required).issuer = mockIssuer ∧
      (rekorVerifyAttestation ("sha256:" ++ h) allowed required).attestationType =
        mockAttestationType ∧
      (rekorVerifyAttestation ("sha256:" ++ h) allowed required).logIndex = 123456789) := by
  have hsplit := goSplitChar_sha256 h hfree
  simp only [rekorVerifyAttestation, hsplit]
  simp only [List.length_cons, List.length_nil, List.headD_cons, List.getD_cons_succ,
    List.getD_cons_zero, bne_self_eq_false, Bool.or_self, Bool.false_or, hlen]
  norm_num
  by_cases hA0 : allowed = []
  · subst hA0
    by_cases hB0 : required = []
    · subst hB0
      simp [matchesPolicy]
    · by_cases hB1 : mockAttestationType ∈ required
      · simp [matchesPolicy, hB0, hB1, List.length_pos]
      · simp [matchesPolicy, hB0, hB1, List.length_pos]
  · by_cases hA1 : mockIssuer ∈ allowed
    · by_cases hB0 : required = []
      · subst hB0
        simp [matchesPolicy, hA0, hA1, List.length_pos]
      · by_cases hB1 : mockAttestationType ∈ required
        · simp [matchesPolicy, hA0, hA1, hB0, hB1, List.length_pos]
        · simp [matchesPolicy, hA0, hA1, hB0, hB1, List.length_pos]
    · simp [matchesPolicy, hA0, hA1, List.length_pos]

/-- C8 witness: with both allow-lists empty, a well-formed digest verifies. -/
theorem rekor_policy_matching_witness :
    (rekorVerifyAttestation ("sha256:" ++ hexA64) [] []).verified = true := by
  have h := (rekor_policy_matching hexA64 [] [] (by decide) (by decide)).1
  exact h.trans (by decide)

/-- C9: with no namespace selector every namespace name is returned; with a
selector only the label-matching namespaces are kept; a deployment is a
candidate iff some container image passes the textual prefix test (plain or
`docker.io/`-qualified); and the test is a pure prefix comparison — any
textual continuation of the repository matches, with no boundary check. -/
theorem scanner_namespaces_and_image_match (allNs : List K8sNamespace)
    (sel : List (String × String) → Bool) (d : Deployment) (repo : String) :
    getNamespacesToMonitor none allNs = allNs.map K8sNamespace.name ∧
    getNamespacesToMonitor (some sel) allNs =
      (allNs.filter (fun n => sel n.labels)).map K8sNamespace.name ∧
    (deploymentUsesRepository d repo = true ↔
      ∃ im ∈ d.containers, imageMatchesRepository im repo = true) ∧
    (∀ tail : String, imageMatchesRepository (repo ++ tail) repo = true) := by
  refine ⟨rfl, rfl, ?_, ?_⟩
  · simp [deploymentUsesRepository, List.any_eq_true]
  · intro tail
    have hp : repo.toList.isPrefixOf (repo ++ tail).toList = true := by
      rw [List.isPrefixOf_iff_prefix]
      simp [String.toList, String.data_append]
    simp [imageMatchesRepository, goStartsWith, hp]

/-- C9 witness: a sibling repository sharing the string prefix is matched. -/
theorem scanner_namespaces_and_image_match_witness :
    imageMatchesRepository ("jon/app" ++ "-evil:latest") "jon/app" = true :=
  (scanner_namespaces_and_image_match [] (fun _ => true) depOther "jon/app").2.2.2 "-evil:latest"

/-- C10: a deployment none of whose container images matches the repository
keeps the initial `isCompliant = true` and empty `currentDigest` (for any
enforcement setting) whenever attestation is not required — the analyzer
defaults to compliant for unmatched deployments. -/
theorem unmatched_deployment_defaults_compliant (d : Deployment) (repo ld : String)
    (enf : Bool) (attPol : Option AttestationPolicy) (rekor : Bool) (now : Nat)
    (hnone : ∀ im ∈ d.containers, imageMatchesRepository im repo = false)
    (hreq : requiresAttestation attPol = false) :
    (analyzeDeploymentCompliance d repo ld enf attPol rekor now).isCompliant = true ∧
    (analyzeDeploymentCompliance d repo ld enf attPol rekor now).currentDigest = "" := by
  have hfind : d.containers.find? (fun im => imageMatchesRepository im repo) = none :=
    List.find?_eq_none.mpr (fun x hx => by simp [hnone x hx])
  rw [analyze_no_attestation d repo ld enf attPol rekor now hreq]
  simp [digestPhaseStatus, hfind]

/-- C10 witness: a deployment on an unrelated repository analyzes compliant
with no digest, even under enforcement. -/
theorem unmatched_deployment_defaults_compliant_witness :
    (analyzeDeploymentCompliance depOther "jon/app" "" true none false 7).isCompliant = true ∧
    (analyzeDeploymentCompliance depOther "jon/app" "" true none false 7).currentDigest = "" :=
  unmatched_deployment_defaults_compliant depOther "jon/app" "" true none false 7
    (by decide) rfl
